import Mathlib

/-!
Shallow embedding of the docker-update-commander core (`src/app.py`):
image identity resolution, the single-container update check with its
result cache, the auto-update policy decision, the background worker
iteration, the container listing route, the synchronous update route,
and configuration loading. The container runtime, registry and updater
engine are modelled as explicit environment functions supplied as input.
-/

set_option autoImplicit false

namespace DockerUpdateCommander

/-- Does `needle` occur at the start of `hay`? -/
def charsStartWith : List Char → List Char → Bool
  | [], _ => true
  | _ :: _, [] => false
  | a :: as, b :: bs => a = b && charsStartWith as bs

/-- Does `needle` occur anywhere in `hay` (empty needle always occurs)? -/
def charsOccurIn (needle : List Char) : List Char → Bool
  | [] => needle.isEmpty
  | b :: bs => charsStartWith needle (b :: bs) || charsOccurIn needle bs

/-- Python `needle in haystack` substring test on strings. -/
def strContains (haystack needle : String) : Bool :=
  charsOccurIn needle.data haystack.data

/-- Python `s.split(c)` for a one-character separator. -/
def splitChar (sep : Char) : List Char → List (List Char)
  | [] => [[]]
  | c :: rest =>
    if c = sep then [] :: splitChar sep rest
    else
      match splitChar sep rest with
      | [] => [[c]]
      | h :: t => (c :: h) :: t

/-- `s.split(':')[-1][:12]`: last `:`-separated component, truncated to 12 chars. -/
def shortDisplay (s : String) : String :=
  String.mk (((splitChar ':' s.data).getLastD []).take 12)

/-- A container handle as observed through the runtime client.
`tagsResult` models the `container.image.tags` access (`none` = the access
raises); `attrsImage` models `container.attrs.get('Config', {}).get('Image', '')`
(`none` = the access raises, `some s` = the resulting string after the `''`
default). `imageCreated` models `container.image.attrs.get('Created', ...)`
before its `'Unknown'` default. -/
structure Container where
  id : String
  name : String
  short_id : String
  status : String
  imageId : String
  imageCreated : Option String
  tagsResult : Option (List String)
  attrsImage : Option String
  deriving DecidableEq, Repr

/-- Outcome of `client.images.pull(name)`: success with the pulled image's
id and raw `Created` attribute, a `docker.errors.NotFound`/`APIError`, or
any other exception (propagated). -/
inductive PullOutcome where
  | ok (id : String) (created : Option String)
  | notFound
  | err (msg : String)
  deriving DecidableEq, Repr

/-- The check outcome dictionary built by `perform_single_check`. -/
structure CheckResult where
  update_available : Bool
  is_local : Bool
  current_id_short : String
  new_id_short : String
  current_created : String
  new_created : String
  checked_at : String
  deriving DecidableEq, Repr

/-- `SERVER_CACHE`: mapping container id → most recent check outcome. -/
abbrev Cache := List (String × CheckResult)

/-- `SERVER_CACHE[k] = v` (overwrite semantics). -/
def cacheInsert (c : Cache) (k : String) (v : CheckResult) : Cache :=
  (k, v) :: c.filter (fun p => p.1 ≠ k)

/-- `if k in SERVER_CACHE: del SERVER_CACHE[k]` (no-op when absent). -/
def cacheErase (c : Cache) (k : String) : Cache :=
  c.filter (fun p => p.1 ≠ k)

/-- Read `SERVER_CACHE.get(k)`. -/
def cacheGet (c : Cache) (k : String) : Option CheckResult :=
  (c.find? (fun p => p.1 = k)).map (·.2)

/-- The runtime environment a single check runs against:
`client.containers.get`, `client.images.pull`, and `datetime.now().isoformat()`. -/
structure Env where
  getContainer : String → Option Container
  pull : String → PullOutcome
  now : String

/-- `get_image_name(container)`: first tag, else the creation-config image
reference when non-empty, else `"unknown-image"`; any exception during the
attribute accesses collapses to `"unknown"`. Total: never raises. -/
def get_image_name (c : Container) : String :=
  match c.tagsResult with
  | none => "unknown"
  | some (t :: _) => t
  | some [] =>
    match c.attrsImage with
    | none => "unknown"
    | some img => if img ≠ "" then img else "unknown-image"

/-- `perform_single_check(container_id)`: look the container up, resolve its
image name, guard against empty/`"unknown-image"` names, pull, classify the
outcome, write it through the cache and return it. `Except.error` models a
raised exception (cache untouched on every raising path). -/
def perform_single_check (env : Env) (cache : Cache) (container_id : String) :
    Except String (CheckResult × Cache) :=
  match env.getContainer container_id with
  | none => Except.error ("No such container: " ++ container_id)
  | some container =>
    let current_id := container.imageId
    let image_name := get_image_name container
    if image_name = "" ∨ image_name = "unknown-image" then
      Except.error "Could not determine image name"
    else
      let current_created := container.imageCreated.getD "Unknown"
      match env.pull image_name with
      | PullOutcome.err e => Except.error e
      | PullOutcome.notFound =>
        let result : CheckResult :=
          { update_available := false
            is_local := true
            current_id_short := shortDisplay current_id
            new_id_short := "n/a"
            current_created := current_created
            new_created := "n/a"
            checked_at := env.now }
        Except.ok (result, cacheInsert cache container_id result)
      | PullOutcome.ok new_id new_created_attr =>
        let new_created := new_created_attr.getD "Unknown"
        let result : CheckResult :=
          { update_available := new_id != current_id
            is_local := false
            current_id_short := shortDisplay current_id
            new_id_short := if new_id ≠ "" then shortDisplay new_id else "n/a"
            current_created := current_created
            new_created := if new_created ≠ "" then new_created else "n/a"
            checked_at := env.now }
        Except.ok (result, cacheInsert cache container_id result)

/-- The outcome `perform_single_check` builds in its not-found branch. -/
def localResult (env : Env) (c : Container) : CheckResult :=
  { update_available := false, is_local := true,
    current_id_short := shortDisplay c.imageId, new_id_short := "n/a",
    current_created := c.imageCreated.getD "Unknown", new_created := "n/a",
    checked_at := env.now }

/-- The outcome `perform_single_check` builds in its successful-pull branch. -/
def pulledResult (env : Env) (c : Container) (new_id : String)
    (created : Option String) : CheckResult :=
  { update_available := new_id != c.imageId, is_local := false,
    current_id_short := shortDisplay c.imageId,
    new_id_short := if new_id ≠ "" then shortDisplay new_id else "n/a",
    current_created := c.imageCreated.getD "Unknown",
    new_created := if created.getD "Unknown" ≠ "" then created.getD "Unknown" else "n/a",
    checked_at := env.now }

/-- The four recognized policy fields, as the worker reads them
(`config.get(...)` with the listed defaults, `int()` on the interval). -/
structure Config where
  check_mode : String
  check_interval : Int
  auto_update_mode : String
  auto_update_containers : List String
  deriving DecidableEq, Repr

/-- The auto-update decision of the worker loop (lines 182-189): dispatch
only when the outcome shows an update for a non-local image, and then when
the mode is `all`, or the mode is `selected` and the container's name is in
the allow-list. -/
def auto_update_decision (auto_up_mode : String) (auto_up_list : List String)
    (container_name : String) (result : CheckResult) : Bool :=
  if result.update_available && !result.is_local then
    if auto_up_mode = "all" then true
    else if auto_up_mode = "selected" && auto_up_list.contains container_name then true
    else false
  else false

/-- Environment for one iteration of `background_worker`'s `while True` body:
the freshly loaded config, `time.time()` at the gate (line 164) and after the
loop (line 198), `client.containers.list()` (`none` = it raised),
`socket.gethostname()`, the single-check environment, and whether
`trigger_updater_engine(name)` succeeds. -/
structure WorkerEnv where
  config : Config
  nowStart : Nat
  nowEnd : Nat
  listResult : Option (List Container)
  hostname : String
  getContainer : String → Option Container
  pull : String → PullOutcome
  nowIso : String
  dispatchOk : String → Bool

/-- The single-check environment induced by a worker environment. -/
def WorkerEnv.toEnv (env : WorkerEnv) : Env :=
  { getContainer := env.getContainer, pull := env.pull, now := env.nowIso }

/-- Observable events of one worker iteration: whether the gated enumeration
block was entered, which containers had `perform_single_check` invoked, and
the ids whose dispatch succeeded / failed. -/
structure CycleLog where
  ranCycle : Bool
  checked : List Container
  dispatched : List String
  failedDispatch : List String
  deriving DecidableEq, Repr

def emptyLog : CycleLog :=
  { ranCycle := false, checked := [], dispatched := [], failedDispatch := [] }

/-- The body of the worker's `for c in containers:` loop for one container:
self/updater exclusion, check, policy decision, dispatch with cache eviction
on success; any failure of the check or the dispatch is caught (`inner_e`)
and only logged. -/
def processContainer (env : WorkerEnv) (acc : Cache × CycleLog) (c : Container) :
    Cache × CycleLog :=
  let cache := acc.1
  let log := acc.2
  if strContains env.hostname c.short_id then acc
  else
    let image_name := get_image_name c
    if strContains image_name "watchtower" then acc
    else
      let log := { log with checked := log.checked ++ [c] }
      match perform_single_check env.toEnv cache c.id with
      | Except.error _ => (cache, log)
      | Except.ok (result, cache') =>
        if auto_update_decision env.config.auto_update_mode
            env.config.auto_update_containers c.name result then
          if env.dispatchOk c.name then
            (cacheErase cache' c.id, { log with dispatched := log.dispatched ++ [c.id] })
          else
            (cache', { log with failedDispatch := log.failedDispatch ++ [c.id] })
        else (cache', log)

/-- One iteration of the `background_worker` loop body (lines 155-204),
returning the new `last_check_time`, the new cache, and the event log.
When the enumeration raises, `last_check_time` is not updated (line 198 sits
inside the `try`); when the full loop finishes it is set to the end-of-cycle
`time.time()`. -/
def worker_iteration (env : WorkerEnv) (last_check_time : Nat) (cache : Cache) :
    Nat × Cache × CycleLog :=
  if env.config.check_mode = "background" then
    let interval_seconds : Int := env.config.check_interval * 60
    if (env.nowStart : Int) - (last_check_time : Int) ≥ interval_seconds then
      match env.listResult with
      | none => (last_check_time, cache, { emptyLog with ranCycle := true })
      | some containers =>
        let folded := containers.foldl (processContainer env)
          (cache, { emptyLog with ranCycle := true })
        (env.nowEnd, folded.1, folded.2)
    else (last_check_time, cache, emptyLog)
  else (last_check_time, cache, emptyLog)

/-- One entry of the `/api/containers` response. -/
structure ContainerData where
  id : String
  name : String
  image : String
  status : String
  short_id : String
  cached_result : Option CheckResult
  deriving DecidableEq, Repr

/-- The listing entry built for one container: id, name, resolved image
name, status, short id, and the cached outcome when present. -/
def containerData (cache : Cache) (c : Container) : ContainerData :=
  { id := c.id, name := c.name, image := get_image_name c,
    status := c.status, short_id := c.short_id,
    cached_result := cacheGet cache c.id }

/-- One step of the `/api/containers` loop: skip self and updater-engine
containers, otherwise append the entry. -/
def listingStep (hostname : String) (cache : Cache)
    (acc : List ContainerData) (c : Container) : List ContainerData :=
  if strContains hostname c.short_id then acc
  else
    let image_name := get_image_name c
    if strContains image_name "watchtower" then acc
    else acc ++ [containerData cache c]

/-- The `/api/containers` route body (lines 247-270). -/
def list_containers (hostname : String) (all_containers : List Container)
    (cache : Cache) : List ContainerData :=
  all_containers.foldl (listingStep hostname cache) []

/-- The `/api/update/<container_name>` route body (lines 282-289):
invoke the updater engine and report success or the error; the cache is
not touched on either path. -/
def run_update (dispatchOk : String → Bool) (cache : Cache)
    (container_name : String) : Except String Unit × Cache :=
  if dispatchOk container_name then (Except.ok (), cache)
  else (Except.error "update failed", cache)

/-- A JSON value, as far as the configuration document needs. -/
inductive JVal where
  | s (v : String)
  | n (v : Int)
  | l (v : List String)
  | b (v : Bool)
  deriving DecidableEq, Repr

/-- A JSON object: association list with unique keys (Python dict). -/
abbrev Doc := List (String × JVal)

/-- First-match association lookup (Python dict access on unique keys). -/
def lookupD : Doc → String → Option JVal
  | [], _ => none
  | kv :: rest, k => if kv.1 = k then some kv.2 else lookupD rest k

/-- `DEFAULT_CONFIG` (lines 28-33). -/
def DEFAULT_CONFIG : Doc :=
  [("check_mode", JVal.s "manual"),
   ("check_interval", JVal.n 60),
   ("auto_update_mode", JVal.s "off"),
   ("auto_update_containers", JVal.l [])]

/-- Python `{**a, **b}`: keys of `a` in order with `b`'s value when `b` has
the key, then the keys of `b` not present in `a`. -/
def dictMerge (a b : Doc) : Doc :=
  (a : List (String × JVal)).map
    (fun kv => match lookupD b kv.1 with
      | some v => (kv.1, v)
      | none => kv)
  ++ (b : List (String × JVal)).filter (fun kv => (lookupD a kv.1).isNone)

/-- `load_config()` (lines 46-55): `none` = the file does not exist,
`some (Except.error _)` = opening/parsing raised, `some (Except.ok d)` = the
parsed document. Total: never raises. -/
def load_config (file : Option (Except String Doc)) : Doc :=
  match file with
  | none => DEFAULT_CONFIG
  | some (Except.error _) => DEFAULT_CONFIG
  | some (Except.ok d) => dictMerge DEFAULT_CONFIG d

/-- Eligibility of a container for the worker cycle / the listing route:
not the host's own container, not the updater engine. -/
def eligibleContainer (hostname : String) (c : Container) : Bool :=
  !strContains hostname c.short_id && !strContains (get_image_name c) "watchtower"

/-- The mutual-exclusion invariant on check outcomes. -/
def invLocal (r : CheckResult) : Prop :=
  r.is_local = true → r.update_available = false

/- Concrete inputs used by witnesses and counterexamples. -/

/-- A container with a normal tagged image. -/
def cA : Container :=
  { id := "a1", name := "web", short_id := "a1short", status := "running",
    imageId := "sha256:oldid", imageCreated := some "2024-01-01",
    tagsResult := some ["repo/web:latest"], attrsImage := some "repo/web:latest" }

/-- A runtime environment whose registry answers not-found for every pull. -/
def envNF : Env :=
  { getContainer := fun cid => if cid = "a1" then some cA else none,
    pull := fun _ => PullOutcome.notFound, now := "T0" }

/-- A runtime environment whose registry raises a generic error on pull. -/
def envErr : Env :=
  { getContainer := fun cid => if cid = "a1" then some cA else none,
    pull := fun _ => PullOutcome.err "boom", now := "T0" }

/-- The outcome of checking `cA` against `envNF`. -/
def rNF : CheckResult :=
  { update_available := false, is_local := true, current_id_short := "oldid",
    new_id_short := "n/a", current_created := "2024-01-01", new_created := "n/a",
    checked_at := "T0" }

/-- A container whose `image.tags` access raises, so its name resolves to
`"unknown"`. -/
def cU : Container :=
  { id := "u1", name := "local", short_id := "u1short", status := "running",
    imageId := "sha256:curid", imageCreated := some "2024-01-01",
    tagsResult := none, attrsImage := some "whatever" }

/-- An environment in which pulling the literal name `"unknown"` succeeds
with a fresh image. -/
def envU : Env :=
  { getContainer := fun cid => if cid = "u1" then some cU else none,
    pull := fun name =>
      if name = "unknown" then PullOutcome.ok "sha256:newid" (some "2025-01-01")
      else PullOutcome.err "x",
    now := "T1" }

/-- The outcome of checking `cU` against `envU`. -/
def rU : CheckResult :=
  { update_available := true, is_local := false, current_id_short := "curid",
    new_id_short := "newid", current_created := "2024-01-01",
    new_created := "2025-01-01", checked_at := "T1" }

/-- A container with no tags and an empty creation-config image, so its name
resolves to `"unknown-image"`. -/
def cB : Container :=
  { id := "b1", name := "bare", short_id := "b1short", status := "running",
    imageId := "sha256:bid", imageCreated := none,
    tagsResult := some [], attrsImage := some "" }

/-- An environment holding `cB`; its pull function never succeeds, which the
guard makes irrelevant. -/
def envB : Env :=
  { getContainer := fun cid => if cid = "b1" then some cB else none,
    pull := fun _ => PullOutcome.err "should not matter", now := "T1" }

/-- A worker-cycle container with an available update. -/
def cW : Container :=
  { id := "w1", name := "web", short_id := "wshort", status := "running",
    imageId := "sha256:oldid", imageCreated := some "2024-01-01",
    tagsResult := some ["repo/web:latest"], attrsImage := some "repo/web:latest" }

/-- The outcome of checking `cW` in the worker environments below. -/
def rW : CheckResult :=
  { update_available := true, is_local := false, current_id_short := "oldid",
    new_id_short := "newid", current_created := "2024-01-01", new_created := "2025",
    checked_at := "T2" }

/-- A container whose check fails (its pull raises a generic error). -/
def cF : Container :=
  { id := "f1", name := "api", short_id := "fshort", status := "running",
    imageId := "sha256:fid", imageCreated := some "2024",
    tagsResult := some ["repo/api:1"], attrsImage := some "repo/api:1" }

/-- An updater-engine container (image name contains `"watchtower"`). -/
def cWatch : Container :=
  { id := "t1", name := "tower", short_id := "tshort", status := "running",
    imageId := "sha256:tid", imageCreated := some "2024",
    tagsResult := some ["containrrr/watchtower:latest"], attrsImage := some "x" }

/-- Worker environment: background mode, auto-update `all`, dispatch succeeds. -/
def wenvT : WorkerEnv :=
  { config := { check_mode := "background", check_interval := 1,
                auto_update_mode := "all", auto_update_containers := [] },
    nowStart := 100, nowEnd := 160, listResult := some [cW],
    hostname := "deadbeef",
    getContainer := fun cid => if cid = "w1" then some cW else none,
    pull := fun _ => PullOutcome.ok "sha256:newid" (some "2025"),
    nowIso := "T2", dispatchOk := fun _ => true }

/-- Like `wenvT` but every dispatch fails. -/
def wenvF : WorkerEnv :=
  { wenvT with dispatchOk := fun _ => false }

/-- Worker environment with a failing container (`cF`) ahead of a healthy one
(`cW`) and an updater-engine container (`cWatch`) in the list. -/
def wenv7 : WorkerEnv :=
  { config := { check_mode := "background", check_interval := 1,
                auto_update_mode := "off", auto_update_containers := [] },
    nowStart := 100, nowEnd := 160, listResult := some [cF, cWatch, cW],
    hostname := "deadbeef",
    getContainer := fun cid =>
      if cid = "f1" then some cF
      else if cid = "w1" then some cW
      else none,
    pull := fun name =>
      if name = "repo/api:1" then PullOutcome.err "boom"
      else PullOutcome.ok "sha256:newid" (some "2025"),
    nowIso := "T2", dispatchOk := fun _ => true }

/-- Worker environment in `startup` mode. -/
def wenvS : WorkerEnv :=
  { wenvT with config := { check_mode := "startup", check_interval := 1,
                           auto_update_mode := "all", auto_update_containers := [] } }

/-- A second-iteration environment 10 seconds after `wenvT`'s cycle end. -/
def wenv2 : WorkerEnv :=
  { wenvT with nowStart := 170, nowEnd := 230 }

/-- A second-iteration environment 60 seconds after `wenvT`'s cycle end. -/
def wenv3 : WorkerEnv :=
  { wenvT with nowStart := 220, nowEnd := 280 }

/- Helper lemmas. -/

theorem mem_cacheInsert {cache : Cache} {k : String} {v : CheckResult}
    {p : String × CheckResult} (hp : p ∈ cacheInsert cache k v) :
    p = (k, v) ∨ p ∈ cache := by
  unfold cacheInsert at hp
  rcases List.mem_cons.mp hp with h | h
  · exact Or.inl h
  · exact Or.inr (List.mem_filter.mp h).1

theorem cacheGet_insert_self (cache : Cache) (k : String) (v : CheckResult) :
    cacheGet (cacheInsert cache k v) k = some v := by
  simp [cacheGet, cacheInsert]

theorem cacheGet_erase_self (cache : Cache) (k : String) :
    cacheGet (cacheErase cache k) k = none := by
  unfold cacheGet cacheErase
  rw [List.find?_eq_none.mpr]
  · rfl
  · intro p hp
    have := (List.mem_filter.mp hp).2
    simp at this ⊢
    exact this

theorem perform_ok_shape {env : Env} {cache : Cache} {cid : String}
    {r : CheckResult} {cache' : Cache}
    (h : perform_single_check env cache cid = Except.ok (r, cache')) :
    cache' = cacheInsert cache cid r := by
  unfold perform_single_check at h
  split at h
  · exact absurd h (by simp)
  · dsimp only at h
    split at h
    · exact absurd h (by simp)
    · split at h
      · exact absurd h (by simp)
      · simp only [Except.ok.injEq, Prod.mk.injEq] at h
        obtain ⟨hr, hc⟩ := h
        rw [← hc, ← hr]
      · simp only [Except.ok.injEq, Prod.mk.injEq] at h
        obtain ⟨hr, hc⟩ := h
        rw [← hc, ← hr]

/-- C1: every outcome `perform_single_check` returns — and hence every
outcome it writes into the cache — satisfies the mutual-exclusion invariant
`is_local = true → update_available = false`, for every environment, input
cache, container, and pull behaviour. -/
theorem check_outcome_local_excludes_update
    (env : Env) (cache : Cache) (container_id : String)
    (r : CheckResult) (cache' : Cache)
    (h : perform_single_check env cache container_id = Except.ok (r, cache')) :
    invLocal r ∧ ((∀ p ∈ cache, invLocal p.2) → ∀ p ∈ cache', invLocal p.2) := by
  have hshape := perform_ok_shape h
  have hinv : invLocal r := by
    unfold perform_single_check at h
    split at h
    · exact absurd h (by simp)
    · dsimp only at h
      split at h
      · exact absurd h (by simp)
      · split at h
        · exact absurd h (by simp)
        · simp only [Except.ok.injEq, Prod.mk.injEq] at h
          rw [← h.1]
          intro hl
          rfl
        · simp only [Except.ok.injEq, Prod.mk.injEq] at h
          rw [← h.1]
          intro hl
          exact absurd hl (by simp)
  refine ⟨hinv, fun hcache p hp => ?_⟩
  rw [hshape] at hp
  rcases mem_cacheInsert hp with h1 | h1
  · rw [h1]
    exact hinv
  · exact hcache p h1

/-- C1 witness: a concrete not-found check against `envNF`. -/
theorem check_outcome_local_excludes_update_witness :
    invLocal rNF ∧
      ((∀ p ∈ ([] : Cache), invLocal p.2) → ∀ p ∈ [("a1", rNF)], invLocal p.2) :=
  check_outcome_local_excludes_update envNF [] "a1" rNF [("a1", rNF)] rfl

/-- C2: when the pull answers not-found/API-error the check returns normally
with `is_local = true`, `update_available = false`; any other pull failure is
propagated as the error it raised. -/
theorem pull_notfound_is_local_not_error
    (env : Env) (cache : Cache) (container_id : String) (c : Container)
    (hget : env.getContainer container_id = some c)
    (hname : ¬(get_image_name c = "" ∨ get_image_name c = "unknown-image")) :
    (env.pull (get_image_name c) = PullOutcome.notFound →
      ∃ r cache', perform_single_check env cache container_id = Except.ok (r, cache') ∧
        r.is_local = true ∧ r.update_available = false) ∧
    (∀ msg, env.pull (get_image_name c) = PullOutcome.err msg →
      perform_single_check env cache container_id = Except.error msg) := by
  constructor
  · intro hpull
    have heq : perform_single_check env cache container_id =
        Except.ok (localResult env c,
          cacheInsert cache container_id (localResult env c)) := by
      unfold perform_single_check localResult
      rw [hget]
      simp only [if_neg hname, hpull]
    exact ⟨_, _, heq, rfl, rfl⟩
  · intro msg hpull
    unfold perform_single_check
    rw [hget]
    simp only [if_neg hname, hpull]

/-- C2 witness: concrete not-found (`envNF`) and generic-error (`envErr`)
pulls against container `cA`. -/
theorem pull_notfound_is_local_not_error_witness :
    (∃ r cache', perform_single_check envNF [] "a1" = Except.ok (r, cache') ∧
      r.is_local = true ∧ r.update_available = false) ∧
    perform_single_check envErr [] "a1" = Except.error "boom" :=
  ⟨(pull_notfound_is_local_not_error envNF [] "a1" cA rfl (by decide)).1 rfl,
   (pull_notfound_is_local_not_error envErr [] "a1" cA rfl (by decide)).2 "boom" rfl⟩

/-- C3: the worker's auto-update decision dispatches exactly when the outcome
shows `is_local = false`, `update_available = true`, and the mode is `all`,
or the mode is `selected` with the container's name in the allow-list. -/
theorem auto_update_decision_iff
    (mode : String) (allow_list : List String) (container_name : String)
    (r : CheckResult) :
    auto_update_decision mode allow_list container_name r = true ↔
      (r.is_local = false ∧ r.update_available = true ∧
        (mode = "all" ∨ (mode = "selected" ∧ container_name ∈ allow_list))) := by
  unfold auto_update_decision
  cases hl : r.is_local
  · cases hu : r.update_available
    · simp [hl, hu]
    · by_cases hm : mode = "all"
      · simp [hl, hu, hm]
      · by_cases hs : mode = "selected"
        · simp [hl, hu, hm, hs, List.contains, List.elem_eq_mem]
        · simp [hl, hu, hm, hs]
  · simp [hl]

/-- C4 counterexample: for the container `cU`, whose `image.tags` access
raises, the name resolves to the unknown marker `"unknown"`, yet
`perform_single_check` does not fail: the guard only catches `""` and
`"unknown-image"`, so a registry pull of the literal name `"unknown"` is
attempted and its outcome (here: a fresh image, hence
`update_available = true`) is returned normally. -/
theorem unknown_name_not_guarded_counterexample :
    get_image_name cU = "unknown" ∧
    perform_single_check envU [] "u1" = Except.ok (rU, [("u1", rU)]) ∧
    rU.update_available = true :=
  ⟨rfl, rfl, rfl⟩

/-- C4 (amended): `get_image_name` is total (never raises), and
`perform_single_check` fails fast — with the descriptive error and without
consulting the pull function — exactly when the resolved name is empty or
the both-absent marker `"unknown-image"`; the exception-path marker
`"unknown"` passes the guard and a pull of the literal name `"unknown"` is
attempted. -/
theorem unknown_name_guard_amended :
    (∀ env cache container_id c, env.getContainer container_id = some c →
      (get_image_name c = "" ∨ get_image_name c = "unknown-image") →
      perform_single_check env cache container_id =
        Except.error "Could not determine image name") ∧
    (∀ env cache container_id c new_id created,
      env.getContainer container_id = some c →
      get_image_name c = "unknown" →
      env.pull "unknown" = PullOutcome.ok new_id created →
      perform_single_check env cache container_id =
        Except.ok (pulledResult env c new_id created,
          cacheInsert cache container_id (pulledResult env c new_id created))) := by
  constructor
  · intro env cache container_id c hget hbad
    unfold perform_single_check
    rw [hget]
    simp only [if_pos hbad]
  · intro env cache container_id c new_id created hget hname hpull
    unfold perform_single_check pulledResult
    rw [hget]
    dsimp only
    rw [hname]
    rw [if_neg (by decide : ¬("unknown" = "" ∨ "unknown" = "unknown-image"))]
    rw [hpull]

/-- C4 witness: the guard fires for `cB` (name `"unknown-image"`), and the
`"unknown"` name of `cU` reaches the pull. -/
theorem unknown_name_guard_amended_witness :
    perform_single_check envB [] "b1" = Except.error "Could not determine image name" ∧
    perform_single_check envU [] "u1" =
      Except.ok (pulledResult envU cU "sha256:newid" (some "2025-01-01"),
        cacheInsert [] "u1" (pulledResult envU cU "sha256:newid" (some "2025-01-01"))) :=
  ⟨unknown_name_guard_amended.1 envB [] "b1" cB rfl (Or.inr rfl),
   unknown_name_guard_amended.2 envU [] "u1" cU "sha256:newid" (some "2025-01-01")
     rfl rfl rfl⟩

/-- C5 counterexample: the synchronous `/api/update/<name>` path does not
evict the Result Cache. Container `cW` (name `"web"`, id `"w1"`) has a
cached outcome; `run_update` dispatches successfully for `"web"`, yet the
entry for `"w1"` is still present on the next read — the route never touches
`SERVER_CACHE`. -/
theorem run_update_does_not_evict_counterexample :
    (run_update (fun _ => true) [("w1", rW)] "web").1 = Except.ok () ∧
    cacheGet (run_update (fun _ => true) [("w1", rW)] "web").2 "w1" = some rW :=
  ⟨rfl, rfl⟩

/-- C5 (amended): in the background-cycle path a successful dispatch evicts
the container's cache entry (absent on the next read) and a failed dispatch
leaves the freshly written check outcome in place; the synchronous
`trigger_update` path never modifies the cache, so even a successful
synchronous dispatch leaves the entry present. -/
theorem dispatch_cache_eviction_amended :
    (∀ (env : WorkerEnv) (cache : Cache) (log : CycleLog) (c : Container)
        (r : CheckResult) (cache' : Cache),
      strContains env.hostname c.short_id = false →
      strContains (get_image_name c) "watchtower" = false →
      perform_single_check env.toEnv cache c.id = Except.ok (r, cache') →
      auto_update_decision env.config.auto_update_mode
        env.config.auto_update_containers c.name r = true →
      (env.dispatchOk c.name = true →
        cacheGet (processContainer env (cache, log) c).1 c.id = none) ∧
      (env.dispatchOk c.name = false →
        cacheGet (processContainer env (cache, log) c).1 c.id = some r)) ∧
    (∀ (dOk : String → Bool) (cache : Cache) (container_name : String),
      (run_update dOk cache container_name).2 = cache) := by
  constructor
  · intro env cache log c r cache' hself hwatch hcheck hdec
    unfold processContainer
    dsimp only
    rw [hself]
    simp only [Bool.false_eq_true, if_false]
    rw [hwatch]
    simp only [Bool.false_eq_true, if_false]
    rw [hcheck]
    dsimp only
    rw [hdec]
    simp only [if_true]
    constructor
    · intro hd
      rw [hd]
      simp only [if_true]
      exact cacheGet_erase_self cache' c.id
    · intro hd
      rw [hd]
      simp only [Bool.false_eq_true, if_false]
      rw [perform_ok_shape hcheck]
      exact cacheGet_insert_self cache c.id r
  · intro dOk cache container_name
    unfold run_update
    split <;> rfl

/-- C5 witness: concrete background dispatch success (`wenvT`) and failure
(`wenvF`) for `cW`, and a cache-preserving synchronous failure path. -/
theorem dispatch_cache_eviction_amended_witness :
    cacheGet (processContainer wenvT ([], emptyLog) cW).1 "w1" = none ∧
    cacheGet (processContainer wenvF ([], emptyLog) cW).1 "w1" = some rW ∧
    (run_update (fun _ => false) [("w1", rW)] "api").2 = [("w1", rW)] :=
  ⟨(dispatch_cache_eviction_amended.1 wenvT [] emptyLog cW rW [("w1", rW)]
      rfl rfl rfl rfl).1 rfl,
   (dispatch_cache_eviction_amended.1 wenvF [] emptyLog cW rW [("w1", rW)]
      rfl rfl rfl rfl).2 rfl,
   dispatch_cache_eviction_amended.2 (fun _ => false) [("w1", rW)] "api"⟩

theorem eligible_iff (hostname : String) (c : Container) :
    eligibleContainer hostname c = true ↔
      (strContains hostname c.short_id = false ∧
        strContains (get_image_name c) "watchtower" = false) := by
  unfold eligibleContainer
  cases h1 : strContains hostname c.short_id <;>
    cases h2 : strContains (get_image_name c) "watchtower" <;> simp

theorem processContainer_ranCycle (env : WorkerEnv) (acc : Cache × CycleLog)
    (c : Container) :
    (processContainer env acc c).2.ranCycle = acc.2.ranCycle := by
  unfold processContainer
  dsimp only
  split
  · rfl
  · split
    · rfl
    · split
      · rfl
      · split
        · split <;> rfl
        · rfl

theorem processContainer_checked (env : WorkerEnv) (acc : Cache × CycleLog)
    (c : Container) :
    (processContainer env acc c).2.checked =
      acc.2.checked ++ (if eligibleContainer env.hostname c then [c] else []) := by
  unfold processContainer
  dsimp only
  split
  · rename_i h1
    rw [if_neg]
    · simp
    · rw [eligible_iff]
      intro hc
      rw [h1] at hc
      exact absurd hc.1 (by simp)
  · rename_i h1
    split
    · rename_i h2
      rw [if_neg]
      · simp
      · rw [eligible_iff]
        intro hc
        rw [h2] at hc
        exact absurd hc.2 (by simp)
    · rename_i h2
      rw [if_pos]
      · split
        · rfl
        · split
          · split <;> rfl
          · rfl
      · rw [eligible_iff]
        exact ⟨Bool.eq_false_iff.mpr h1, Bool.eq_false_iff.mpr h2⟩

theorem foldl_process_ranCycle (env : WorkerEnv) (cs : List Container) :
    ∀ acc : Cache × CycleLog,
      (cs.foldl (processContainer env) acc).2.ranCycle = acc.2.ranCycle := by
  induction cs with
  | nil => intro acc; rfl
  | cons c cs ih =>
    intro acc
    rw [List.foldl_cons, ih, processContainer_ranCycle]

theorem foldl_process_checked (env : WorkerEnv) (cs : List Container) :
    ∀ acc : Cache × CycleLog,
      (cs.foldl (processContainer env) acc).2.checked =
        acc.2.checked ++ (cs.filter (eligibleContainer env.hostname)).map id := by
  induction cs with
  | nil => intro acc; simp
  | cons c cs ih =>
    intro acc
    rw [List.foldl_cons, ih, processContainer_checked]
    cases h : eligibleContainer env.hostname c <;>
      simp [List.filter_cons, h]

theorem listingStep_eq (hostname : String) (cache : Cache)
    (acc : List ContainerData) (c : Container) :
    listingStep hostname cache acc c =
      acc ++ (if eligibleContainer hostname c then [containerData cache c] else []) := by
  unfold listingStep
  dsimp only
  split
  · rename_i h1
    rw [if_neg]
    · simp
    · rw [eligible_iff]
      intro hc
      rw [h1] at hc
      exact absurd hc.1 (by simp)
  · rename_i h1
    split
    · rename_i h2
      rw [if_neg]
      · simp
      · rw [eligible_iff]
        intro hc
        rw [h2] at hc
        exact absurd hc.2 (by simp)
    · rename_i h2
      rw [if_pos]
      · rw [eligible_iff]
        exact ⟨Bool.eq_false_iff.mpr h1, Bool.eq_false_iff.mpr h2⟩

theorem list_containers_eq (hostname : String) (cs : List Container) (cache : Cache) :
    list_containers hostname cs cache =
      (cs.filter (eligibleContainer hostname)).map (containerData cache) := by
  unfold list_containers
  suffices h : ∀ acc, cs.foldl (listingStep hostname cache) acc =
      acc ++ (cs.filter (eligibleContainer hostname)).map (containerData cache) by
    simpa using h []
  induction cs with
  | nil => intro acc; simp
  | cons c cs ih =>
    intro acc
    rw [List.foldl_cons, ih, listingStep_eq]
    cases h : eligibleContainer hostname c <;>
      simp [List.filter_cons, h]

theorem worker_ranCycle_iff (env : WorkerEnv) (last : Nat) (cache : Cache) :
    (worker_iteration env last cache).2.2.ranCycle = true ↔
      (env.config.check_mode = "background" ∧
        (env.nowStart : Int) - (last : Int) ≥ env.config.check_interval * 60) := by
  unfold worker_iteration
  split
  · rename_i hmode
    dsimp only
    split
    · rename_i hgate
      cases hl : env.listResult with
      | none => simp [hl, hmode, hgate]
      | some cs =>
        simp only [hl]
        rw [foldl_process_ranCycle]
        simp [hmode, hgate]
    · rename_i hgate
      simp [emptyLog, hgate]
  · rename_i hmode
    simp [emptyLog, hmode]

theorem worker_last_time_of_cycle (env : WorkerEnv) (last : Nat) (cache : Cache)
    (cs : List Container)
    (hmode : env.config.check_mode = "background")
    (hgate : (env.nowStart : Int) - (last : Int) ≥ env.config.check_interval * 60)
    (hl : env.listResult = some cs) :
    (worker_iteration env last cache).1 = env.nowEnd := by
  unfold worker_iteration
  rw [if_pos hmode]
  dsimp only
  rw [if_pos hgate, hl]

theorem worker_noop_of_gate_closed (env : WorkerEnv) (last : Nat) (cache : Cache)
    (h : ¬(env.config.check_mode = "background" ∧
          (env.nowStart : Int) - (last : Int) ≥ env.config.check_interval * 60)) :
    worker_iteration env last cache = (last, cache, emptyLog) := by
  unfold worker_iteration
  by_cases hmode : env.config.check_mode = "background"
  · rw [if_pos hmode]
    dsimp only
    rw [if_neg (fun hgate => h ⟨hmode, hgate⟩)]
  · rw [if_neg hmode]

theorem worker_checked_eq (env : WorkerEnv) (last : Nat) (cache : Cache)
    (cs : List Container)
    (hmode : env.config.check_mode = "background")
    (hgate : (env.nowStart : Int) - (last : Int) ≥ env.config.check_interval * 60)
    (hl : env.listResult = some cs) :
    (worker_iteration env last cache).2.2.checked =
      cs.filter (eligibleContainer env.hostname) := by
  unfold worker_iteration
  rw [if_pos hmode]
  dsimp only
  rw [if_pos hgate, hl]
  dsimp only
  rw [foldl_process_checked]
  simp [emptyLog]

theorem worker_checked_only_eligible (env : WorkerEnv) (last : Nat) (cache : Cache)
    (c : Container)
    (hc : c ∈ (worker_iteration env last cache).2.2.checked) :
    ∃ cs, env.listResult = some cs ∧ c ∈ cs ∧ eligibleContainer env.hostname c = true := by
  by_cases h : env.config.check_mode = "background" ∧
      (env.nowStart : Int) - (last : Int) ≥ env.config.check_interval * 60
  · cases hl : env.listResult with
    | none =>
      exfalso
      unfold worker_iteration at hc
      rw [if_pos h.1] at hc
      dsimp only at hc
      rw [if_pos h.2, hl] at hc
      simp [emptyLog] at hc
    | some cs =>
      rw [worker_checked_eq env last cache cs h.1 h.2 hl] at hc
      have := List.mem_filter.mp hc
      exact ⟨cs, rfl, this.1, this.2⟩
  · rw [worker_noop_of_gate_closed env last cache h] at hc
    simp [emptyLog] at hc

/-- C6: the enumeration block runs exactly when `check_mode = "background"`
and the elapsed time since the last recorded cycle completion is at least
`check_interval` minutes in seconds; the completion timestamp is recorded as
the end-of-cycle time only when the full enumeration finishes (and is left
unchanged otherwise); hence of two consecutive iterations the second
enumerates iff it starts at least one interval after the first cycle's end. -/
theorem background_interval_gating :
    (∀ (env : WorkerEnv) (last : Nat) (cache : Cache),
      (worker_iteration env last cache).2.2.ranCycle = true ↔
        (env.config.check_mode = "background" ∧
          (env.nowStart : Int) - (last : Int) ≥ env.config.check_interval * 60)) ∧
    (∀ (env : WorkerEnv) (last : Nat) (cache : Cache) (cs : List Container),
      env.config.check_mode = "background" →
      (env.nowStart : Int) - (last : Int) ≥ env.config.check_interval * 60 →
      env.listResult = some cs →
      (worker_iteration env last cache).1 = env.nowEnd) ∧
    (∀ (env : WorkerEnv) (last : Nat) (cache : Cache),
      ¬(env.config.check_mode = "background" ∧
          (env.nowStart : Int) - (last : Int) ≥ env.config.check_interval * 60) →
      (worker_iteration env last cache).1 = last) ∧
    (∀ (env1 env2 : WorkerEnv) (last : Nat) (cache : Cache) (cs : List Container),
      env1.config.check_mode = "background" →
      (env1.nowStart : Int) - (last : Int) ≥ env1.config.check_interval * 60 →
      env1.listResult = some cs →
      env2.config.check_mode = "background" →
      (((env2.nowStart : Int) - (env1.nowEnd : Int) < env2.config.check_interval * 60 →
          (worker_iteration env2 (worker_iteration env1 last cache).1
            (worker_iteration env1 last cache).2.1).2.2.ranCycle = false) ∧
        ((env2.nowStart : Int) - (env1.nowEnd : Int) ≥ env2.config.check_interval * 60 →
          (worker_iteration env2 (worker_iteration env1 last cache).1
            (worker_iteration env1 last cache).2.1).2.2.ranCycle = true))) := by
  refine ⟨worker_ranCycle_iff,
    fun env last cache cs hm hg hl => worker_last_time_of_cycle env last cache cs hm hg hl,
    fun env last cache h => by rw [worker_noop_of_gate_closed env last cache h],
    fun env1 env2 last cache cs hm1 hg1 hl1 hm2 => ?_⟩
  have hfst : (worker_iteration env1 last cache).1 = env1.nowEnd :=
    worker_last_time_of_cycle env1 last cache cs hm1 hg1 hl1
  rw [hfst]
  constructor
  · intro hlt
    cases hrc : (worker_iteration env2 env1.nowEnd
        (worker_iteration env1 last cache).2.1).2.2.ranCycle
    · rfl
    · have := (worker_ranCycle_iff env2 env1.nowEnd
        (worker_iteration env1 last cache).2.1).mp hrc
      exact absurd this.2 (not_le.mpr hlt)
  · intro hge
    exact (worker_ranCycle_iff env2 env1.nowEnd
      (worker_iteration env1 last cache).2.1).mpr ⟨hm2, hge⟩

/-- C6 witness: `wenvT` (interval 1 min, 100s elapsed) runs a cycle ending at
160; a second iteration 10s later does not enumerate, one 60s later does;
`wenvS` (startup mode) leaves the timestamp unchanged. -/
theorem background_interval_gating_witness :
    (worker_iteration wenvT 0 []).2.2.ranCycle = true ∧
    (worker_iteration wenvT 0 []).1 = wenvT.nowEnd ∧
    (worker_iteration wenvS 0 []).1 = 0 ∧
    (worker_iteration wenv2 (worker_iteration wenvT 0 []).1
      (worker_iteration wenvT 0 []).2.1).2.2.ranCycle = false ∧
    (worker_iteration wenv3 (worker_iteration wenvT 0 []).1
      (worker_iteration wenvT 0 []).2.1).2.2.ranCycle = true :=
  ⟨(background_interval_gating.1 wenvT 0 []).mpr ⟨rfl, by decide⟩,
   background_interval_gating.2.1 wenvT 0 [] [cW] rfl (by decide) rfl,
   background_interval_gating.2.2.1 wenvS 0 [] (by decide),
   (background_interval_gating.2.2.2 wenvT wenv2 0 [] [cW] rfl (by decide) rfl rfl).1
     (by decide),
   (background_interval_gating.2.2.2 wenvT wenv3 0 [] [cW] rfl (by decide) rfl rfl).2
     (by decide)⟩

/-- C7: within one cycle the set of containers that get checked is exactly
the eligible ones, for every pattern of per-container failures (the check
environment `env.getContainer`/`env.pull`/`env.dispatchOk` is arbitrary, so
a failing container never prevents the later ones from being processed). -/
theorem cycle_contains_per_container_failures
    (env : WorkerEnv) (last : Nat) (cache : Cache) (cs : List Container)
    (hmode : env.config.check_mode = "background")
    (hgate : (env.nowStart : Int) - (last : Int) ≥ env.config.check_interval * 60)
    (hl : env.listResult = some cs) :
    (worker_iteration env last cache).2.2.checked =
      (cs.filter (eligibleContainer env.hostname)).map id ∧
    ∀ c ∈ cs, eligibleContainer env.hostname c = true →
      c ∈ (worker_iteration env last cache).2.2.checked := by
  have h1 := worker_checked_eq env last cache cs hmode hgate hl
  refine ⟨by simpa using h1, fun c hc he => ?_⟩
  rw [h1]
  simpa using List.mem_filter.mpr ⟨hc, he⟩

/-- C7 witness: in `wenv7` the first container's check fails (pull error) and
the second is the excluded updater engine, yet the third is still checked. -/
theorem cycle_contains_per_container_failures_witness :
    (worker_iteration wenv7 0 []).2.2.checked =
      ([cF, cWatch, cW].filter (eligibleContainer wenv7.hostname)).map id ∧
    ∀ c ∈ [cF, cWatch, cW], eligibleContainer wenv7.hostname c = true →
      c ∈ (worker_iteration wenv7 0 []).2.2.checked :=
  cycle_contains_per_container_failures wenv7 0 [] [cF, cWatch, cW] rfl (by decide) rfl

/-- C8: no entry of `list_containers` is the host's own container or the
updater engine, and a container whose short id occurs in the host identity or
whose resolved image mentions the updater engine is never checked by the
background cycle. -/
theorem self_and_updater_excluded :
    (∀ (hostname : String) (cs : List Container) (cache : Cache)
        (d : ContainerData), d ∈ list_containers hostname cs cache →
      strContains hostname d.short_id = false ∧
      strContains d.image "watchtower" = false) ∧
    (∀ (env : WorkerEnv) (last : Nat) (cache : Cache) (cs : List Container)
        (c : Container), env.listResult = some cs → c ∈ cs →
      (strContains env.hostname c.short_id = true ∨
        strContains (get_image_name c) "watchtower" = true) →
      c ∉ (worker_iteration env last cache).2.2.checked) := by
  constructor
  · intro hostname cs cache d hd
    rw [list_containers_eq] at hd
    obtain ⟨c, hcmem, hceq⟩ := List.mem_map.mp hd
    have he := (eligible_iff hostname c).mp (List.mem_filter.mp hcmem).2
    rw [← hceq]
    exact ⟨he.1, he.2⟩
  · intro env last cache cs c _ _ hex hcontra
    obtain ⟨cs', _, _, he⟩ := worker_checked_only_eligible env last cache c hcontra
    have hboth := (eligible_iff env.hostname c).mp he
    rcases hex with hx | hx
    · rw [hboth.1] at hx
      exact absurd hx (by simp)
    · rw [hboth.2] at hx
      exact absurd hx (by simp)

/-- C8 witness: `cW` survives the listing filter (and is neither self nor the
updater), while the watchtower container `cWatch` is never checked. -/
theorem self_and_updater_excluded_witness :
    (strContains "deadbeef" (containerData [] cW).short_id = false ∧
      strContains (containerData [] cW).image "watchtower" = false) ∧
    cWatch ∉ (worker_iteration wenv7 0 []).2.2.checked :=
  ⟨self_and_updater_excluded.1 "deadbeef" [cW, cWatch] [] (containerData [] cW)
     (by decide),
   self_and_updater_excluded.2 wenv7 0 [] [cF, cWatch, cW] cWatch rfl
     (by decide) (Or.inr (by decide))⟩

/-- C10: with `check_mode` equal to `startup` or `manual` a worker iteration
is a complete no-op — no enumeration, no checks, no dispatches, no state
change — and conversely a cycle only ever runs under `background`; the
recognized `startup` mode behaves identically to `manual` in the core. -/
theorem startup_manual_mode_noop :
    (∀ (env : WorkerEnv) (last : Nat) (cache : Cache),
      (env.config.check_mode = "startup" ∨ env.config.check_mode = "manual") →
      worker_iteration env last cache = (last, cache, emptyLog)) ∧
    (∀ (env : WorkerEnv) (last : Nat) (cache : Cache),
      (worker_iteration env last cache).2.2.ranCycle = true →
      env.config.check_mode = "background") := by
  constructor
  · intro env last cache hmode
    apply worker_noop_of_gate_closed
    intro hc
    rcases hmode with h | h <;> rw [h] at hc <;> exact absurd hc.1 (by decide)
  · intro env last cache h
    exact ((worker_ranCycle_iff env last cache).mp h).1

/-- C10 witness: the startup-mode environment `wenvS` is a no-op, and the
cycle that `wenvT` runs indeed has background mode. -/
theorem startup_manual_mode_noop_witness :
    worker_iteration wenvS 0 [] = (0, [], emptyLog) ∧
    wenvT.config.check_mode = "background" :=
  ⟨startup_manual_mode_noop.1 wenvS 0 [] (Or.inl rfl),
   startup_manual_mode_noop.2 wenvT 0 [] rfl⟩

theorem lookupD_append (a b : Doc) (k : String) :
    lookupD (a ++ b) k =
      (match lookupD a k with
       | some v => some v
       | none => lookupD b k) := by
  induction a with
  | nil => rfl
  | cons kv rest ih =>
    by_cases h : kv.1 = k
    · simp [lookupD, h]
    · simp [lookupD, h, ih]

theorem lookupD_map_override (a doc : Doc) (k : String) :
    lookupD (a.map (fun kv => match lookupD doc kv.1 with
      | some v => (kv.1, v)
      | none => kv)) k =
      (match lookupD a k with
       | none => none
       | some w =>
         match lookupD doc k with
         | some v => some v
         | none => some w) := by
  induction a with
  | nil => rfl
  | cons kv rest ih =>
    by_cases h : kv.1 = k
    · cases hd : lookupD doc kv.1 with
      | none =>
        rw [h] at hd
        simp [lookupD, h, hd]
      | some v =>
        rw [h] at hd
        simp [lookupD, h, hd]
    · cases hd : lookupD doc kv.1 <;> simp [lookupD, h, hd, ih]

theorem lookupD_filter_of_keep (doc : Doc) (p : String × JVal → Bool) (k : String)
    (hk : ∀ v, p (k, v) = true) :
    lookupD (doc.filter p) k = lookupD doc k := by
  induction doc with
  | nil => rfl
  | cons kv rest ih =>
    by_cases h : kv.1 = k
    · have hp : p kv = true := by
        have hkv : kv = (k, kv.2) := by rw [← h]
        rw [hkv]
        exact hk kv.2
      simp [List.filter_cons, hp, lookupD, h]
    · cases hp : p kv <;> simp [List.filter_cons, hp, lookupD, h, ih]

/-- C9 counterexample: a stored document carrying the unknown field `"foo"`
loads to a document in which `"foo"` is still present with its stored value —
unknown fields are retained by the `{**DEFAULT_CONFIG, **loaded}` merge, not
dropped from the result. -/
theorem load_config_unknown_retained_counterexample :
    lookupD (load_config (some (Except.ok [("foo", JVal.n 1)]))) "foo" =
      some (JVal.n 1) := rfl

/-- C9 (amended): loading never raises; a missing or unreadable file yields
the full default document; recognized fields missing from the stored
document fall back to their defaults; and every field present in the stored
document — recognized or unknown — appears in the result with its stored
value (unknown fields are retained in the loaded document rather than
removed; consumers simply never read them). -/
theorem load_config_amended :
    (load_config none = DEFAULT_CONFIG) ∧
    (∀ msg, load_config (some (Except.error msg)) = DEFAULT_CONFIG) ∧
    (∀ (doc : Doc) (k : String), lookupD DEFAULT_CONFIG k ≠ none →
      lookupD doc k = none →
      lookupD (load_config (some (Except.ok doc))) k = lookupD DEFAULT_CONFIG k) ∧
    (∀ (doc : Doc) (k : String) (v : JVal), lookupD doc k = some v →
      lookupD (load_config (some (Except.ok doc))) k = some v) := by
  refine ⟨rfl, fun msg => rfl, ?_, ?_⟩
  · intro doc k hdef hdoc
    unfold load_config dictMerge
    rw [lookupD_append, lookupD_map_override]
    cases hd : lookupD DEFAULT_CONFIG k with
    | none => exact absurd hd hdef
    | some w => simp [hd, hdoc]
  · intro doc k v hdoc
    unfold load_config dictMerge
    rw [lookupD_append, lookupD_map_override]
    cases hd : lookupD DEFAULT_CONFIG k with
    | some w => simp [hd, hdoc]
    | none =>
      simp only [hd]
      rw [lookupD_filter_of_keep]
      · exact hdoc
      · intro v'
        simp [hd]

/-- C9 witness: a recognized key missing from the stored document falls back
to its default, and a stored recognized key overrides it. -/
theorem load_config_amended_witness :
    lookupD (load_config (some (Except.ok [("foo", JVal.n 1)]))) "check_mode" =
      lookupD DEFAULT_CONFIG "check_mode" ∧
    lookupD (load_config (some (Except.ok [("check_interval", JVal.n 5)])))
      "check_interval" = some (JVal.n 5) :=
  ⟨load_config_amended.2.2.1 [("foo", JVal.n 1)] "check_mode" (by decide) rfl,
   load_config_amended.2.2.2 [("check_interval", JVal.n 5)] "check_interval"
     (JVal.n 5) rfl⟩

end DockerUpdateCommander
